import Mathlib

/-!
Verification of `src/dcx.py` (DQX-AI/dcx-action) against its design
specification.  The Python source is shallowly embedded: pure helpers become
Lean functions, subprocess and network effects become explicit oracle
structures (`ShellWorld`, `FetchWorld`) recording the outcome of each external
call, and every function returns the trace of commands it issued together with
an `Except`-style result mirroring Python exceptions.
-/

set_option maxHeartbeats 1000000

/-! ## Python regular-expression model

`_URL_ASSET_RX = re.compile(r"https?://[^\s\"']+\.(?:whl|tar\.gz)(?:\?[^\s\"']*)?$", re.I)`
(src/dcx.py lines 83-85).  The pattern is modelled as a decidable predicate on
character lists.  `re.match` anchors at position 0; the trailing `$` makes any
match end at the end of the string, or just before one trailing newline
(Python's `$` semantics).  `re.search` tries every start position.
-/

/-- Characters Python's `\s` matches, for ASCII input (space, tab, newline,
carriage return, vertical tab, form feed). -/
def isPyWs (c : Char) : Bool :=
  c = ' ' || c = '\t' || c = '\n' || c = '\r' || c = Char.ofNat 11 || c = Char.ofNat 12

/-- The character class `[^\s"']`: anything but whitespace, double quote and
single quote (single quote written as `Char.ofNat 39`). -/
def urlBodyCh (c : Char) : Bool :=
  !(isPyWs c) && c ≠ '"' && c ≠ Char.ofNat 39

/-- The optional query-string part `(\?[^\s"']*)?`, matched against the whole
remaining input. -/
def queryOpt : List Char → Bool
  | [] => true
  | c :: rest => c = '?' && rest.all urlBodyCh

/-- The tail `\.(whl|tar\.gz)(\?[^\s"']*)?` matched against the whole remaining
input (pattern literals lowercase; input is lowercased by the caller). -/
def extQuery (l : List Char) : Bool :=
  (".whl".data.isPrefixOf l && queryOpt (l.drop 4)) ||
  (".tar.gz".data.isPrefixOf l && queryOpt (l.drop 7))

/-- `[^\s"']+\.(whl|tar\.gz)(\?[^\s"']*)?` matched against the whole remaining
input: some non-empty prefix of body characters followed by the extension and
optional query (all split points are tried, giving backtracking semantics). -/
def tailMatch (l : List Char) : Bool :=
  (List.range l.length).any fun i =>
    (l.take (i + 1)).all urlBodyCh && extQuery (l.drop (i + 1))

/-- The whole pattern `https?://[^\s"']+\.(whl|tar\.gz)(\?[^\s"']*)?` matched
against an entire lowercased character list. -/
def regexFullLower (l : List Char) : Bool :=
  if "http://".data.isPrefixOf l then tailMatch (l.drop 7)
  else if "https://".data.isPrefixOf l then tailMatch (l.drop 8)
  else false

/-- Case-insensitive (`re.I`) whole-list match: all character classes used by
the pattern are closed under ASCII case change, so matching the lowercased
input against the lowercased literals is faithful. -/
def regexFull (l : List Char) : Bool :=
  regexFullLower (l.map Char.toLower)

/-- Some suffix of `l` (including `l` itself) is a whole-list match.  Together
with the `$` anchor this is exactly which strings `re.search` accepts. -/
def anySuffixFull (l : List Char) : Bool :=
  (List.range (l.length + 1)).any fun i => regexFull (l.drop i)

/-- `_URL_ASSET_RX.match(s)` is truthy: a match starting at position 0 and
ending at the end of the string or just before one trailing newline. -/
def pyMatchB (s : String) : Bool :=
  regexFull s.data || ((s.data.getLast? == some '\n') && regexFull s.data.dropLast)

/-- `_URL_ASSET_RX.search(s)` is truthy: a match starting anywhere and ending
at the end of the string or just before one trailing newline. -/
def pySearchB (s : String) : Bool :=
  anySuffixFull s.data || ((s.data.getLast? == some '\n') && anySuffixFull s.data.dropLast)

/-! ## JSON values and `_extract_download_url_from_json` (lines 88-111) -/

/-- A parsed JSON document, as handed around by `r.json()`. -/
inductive JValue where
  | str : String → JValue
  | num : Int → JValue
  | bool : Bool → JValue
  | null : JValue
  | arr : List JValue → JValue
  | obj : List (String × JValue) → JValue
deriving Repr

mutual

/-- The inner `walk` closure of `_extract_download_url_from_json`: depth-first
traversal keeping the first string value for which `_URL_ASSET_RX.search`
succeeds (the `if found: return` early exit makes later finds irrelevant). -/
def walkV : JValue → Option String
  | JValue.str s => if pySearchB s then some s else none
  | JValue.arr xs => walkL xs
  | JValue.obj kvs => walkO kvs
  | _ => none

/-- `walk` over the elements of a JSON list, in order. -/
def walkL : List JValue → Option String
  | [] => none
  | v :: rest =>
    match walkV v with
    | some s => some s
    | none => walkL rest

/-- `walk` over `obj.values()` of a JSON object, in insertion order (dict keys
themselves are not visited). -/
def walkO : List (String × JValue) → Option String
  | [] => none
  | (_, v) :: rest =>
    match walkV v with
    | some s => some s
    | none => walkO rest

end

mutual

/-- Some string nested anywhere in the value satisfies
`_URL_ASSET_RX.search`. -/
def hasV : JValue → Bool
  | JValue.str s => pySearchB s
  | JValue.arr xs => hasL xs
  | JValue.obj kvs => hasO kvs
  | _ => false

/-- `hasV` over a JSON list. -/
def hasL : List JValue → Bool
  | [] => false
  | v :: rest => hasV v || hasL rest

/-- `hasV` over the values of a JSON object. -/
def hasO : List (String × JValue) → Bool
  | [] => false
  | (_, v) :: rest => hasV v || hasO rest

end

/-- The well-known keys tried first, in source order (line 89). -/
def wellKnownKeys : List String :=
  ["download_url", "url", "asset_url", "browser_download_url"]

/-- One iteration of the key loop (lines 89-92): `payload.get(key)` must be a
string and `_URL_ASSET_RX.match` must succeed on it. -/
def keyProbe (payload : List (String × JValue)) (k : String) : Option String :=
  match payload.lookup k with
  | some (JValue.str v) => if pyMatchB v then some v else none
  | _ => none

/-- The whole key loop: first well-known key whose value passes `keyProbe`. -/
def keyPhase (payload : List (String × JValue)) : Option String :=
  wellKnownKeys.findSome? (keyProbe payload)

/-- `_extract_download_url_from_json` (lines 88-111): the key loop, then the
recursive `walk`, then `found or ""`. -/
def extract_download_url_from_json (payload : List (String × JValue)) : String :=
  match keyPhase payload with
  | some v => v
  | none => (walkO payload).getD ""

/-! ## Filename derivation (src/dcx.py lines 172-180 and 188-197)

The envelope branch and the direct-download branch run the same filename
logic; it is embedded once.  Python string/`pathlib`/`urllib.parse` helpers
are modelled below.
-/

/-- Python `pat in s`: `pat` occurs as a contiguous substring of `s`. -/
def containsSubstr (s pat : String) : Bool :=
  (List.range (s.data.length + 1)).any fun i => pat.data.isPrefixOf (s.data.drop i)

/-- Python `str.lower()` (ASCII case mapping, which is all this program's
inputs use). -/
def pyLower (s : String) : String :=
  String.mk (s.data.map Char.toLower)

/-- Python `s.endswith(suf)`. -/
def pyEndsWith (s suf : String) : Bool :=
  suf.data.isSuffixOf s.data

/-- `s.split(sep)[-1]` for a separator with no self-overlap (such as
`filename=`): the text after the last occurrence of `sep`, or all of `s` when
`sep` does not occur. -/
def pySplitLast (l sep : List Char) : List Char :=
  match ((List.range (l.length + 1)).filter fun i => sep.isPrefixOf (l.drop i)).getLast? with
  | some i => l.drop (i + sep.length)
  | none => l

/-- Python `str.strip()` with no argument: remove leading and trailing
whitespace. -/
def pyStripWs (s : String) : String :=
  String.mk (((s.data.dropWhile isPyWs).reverse.dropWhile isPyWs).reverse)

/-- Python `str.strip('"')`: remove all leading and trailing double quotes. -/
def pyStripQuote (s : String) : String :=
  String.mk (((s.data.dropWhile (fun c => c = '"')).reverse.dropWhile
    (fun c => c = '"')).reverse)

/-- `cd.split("filename=")[-1].strip().strip('"')` (lines 174-175 / 191-192):
the text after the last occurrence of `filename=` (or the whole header when
absent), stripped. -/
def dispositionRaw (cd : String) : String :=
  pyStripQuote (pyStripWs (String.mk (pySplitLast cd.data "filename=".data)))

/-- First index at which `pat` occurs in `l`, if any. -/
def findSubstrIdx (l pat : List Char) : Option Nat :=
  (List.range (l.length + 1)).find? fun i => pat.isPrefixOf (l.drop i)

/-- `urllib.parse.urlparse(url).path` for the scheme-qualified URLs this
program handles: drop `scheme://` and the netloc up to the first `/`, then cut
the path at the first `?` (query) or `#` (fragment). -/
def pyUrlparsePath (url : String) : String :=
  let l := url.data
  let afterScheme :=
    match findSubstrIdx l "://".data with
    | some i => (l.drop (i + 3)).dropWhile (fun c => c ≠ '/')
    | none => l
  String.mk (afterScheme.takeWhile (fun c => c ≠ '?' && c ≠ '#'))

/-- `pathlib.Path(p).name`: the last path component, ignoring trailing
slashes. -/
def pyPathName (p : String) : String :=
  let t := (p.data.reverse.dropWhile (fun c => c = '/')).reverse
  String.mk ((t.reverse.takeWhile (fun c => c ≠ '/')).reverse)

/-- Filename selection of lines 172-180 (and identically 188-197): prefer a
`Content-Disposition` filename, else the last segment of the URL path, else
`package.tar.gz`; ensure a recognized archive extension by appending
`.tar.gz` when missing. -/
def deriveFilename (cd url : String) : String :=
  let fromCd := if containsSubstr cd "filename=" then dispositionRaw cd else ""
  let name1 :=
    if fromCd ≠ "" then fromCd
    else
      let p := pyPathName (pyUrlparsePath url)
      if p ≠ "" then p else "package.tar.gz"
  if pyEndsWith name1 ".whl" || pyEndsWith name1 ".tar.gz" then name1
  else name1 ++ ".tar.gz"

/-! ## Subprocess world and the installer (lines 120-134) -/

/-- Result and environment of every external call `sh` makes: the return code
of each command line, the captured output of the `ls -td output/dcx-scan-*`
probe in `_latest_scan_dir` (lines 223-230, `none` when no directory exists),
and the tool prefix `_dcx_cmd()` resolves (lines 209-220). -/
structure ShellWorld where
  ret : String → Int
  latestScanDir : Option String
  dcxCmd : String

/-- Python exceptions raised by the embedded fragment. -/
inductive DcxError where
  | cmdFailed : String → DcxError
  | noScanDirectory : DcxError
  | downloadFailed : Nat → DcxError
  | envelopeMissingURL : DcxError
  | assetDownloadFailed : Nat → DcxError
  | installFailed : DcxError
  | arityError : String → DcxError
deriving Repr, DecidableEq

/-- Strategy 1 of `install_from_archive` (line 122). -/
def uvToolCmd (archivePath : String) : String :=
  "uv tool install \"" ++ archivePath ++ "\" --force"

/-- Strategy 2 of `install_from_archive` (line 124; the comment in the source
notes that `uv pip` lacks `--user`, so `pip3` is the last resort). -/
def pip3Cmd (archivePath : String) : String :=
  "pip3 install --user \"" ++ archivePath ++ "\""

/-- The `strategies` list of `install_from_archive` (lines 121-125): exactly
two commands against the same local archive path. -/
def installStrategies (archivePath : String) : List String :=
  [uvToolCmd archivePath, pip3Cmd archivePath]

/-- The strategy loop (lines 127-133): run each command, return on the first
zero exit, otherwise log and continue; yields the commands attempted and the
outcome. -/
def installLoop (w : ShellWorld) : List String → List String × Except DcxError Unit
  | [] => ([], Except.error DcxError.installFailed)
  | c :: rest =>
    if w.ret c = 0 then ([c], Except.ok ())
    else
      let r := installLoop w rest
      (c :: r.1, r.2)

/-- `install_from_archive` (lines 120-134): attempt the strategies in order;
raise `RuntimeError("dcx install failed via all strategies")` when every
strategy exits non-zero. -/
def install_from_archive (w : ShellWorld) (archivePath : String) :
    List String × Except DcxError Unit :=
  installLoop w (installStrategies archivePath)

/-! ## Workflow driver (lines 233-268, 274-299) -/

/-- Run parameters gathered by `main` (lines 276-284).  The delay is carried
as the text `str(delay)` interpolates to, since it is only ever interpolated
into a command line. -/
structure RunCfg where
  repoPath : String
  maxChecks : Nat
  delayRepr : String
  apiKey : String

/-- `make scan-full REPO="…"` (line 240). -/
def scanFullCmd (cfg : RunCfg) : String :=
  "make scan-full REPO=\"" ++ cfg.repoPath ++ "\""

/-- `make check-ai-results-scan SCAN_ID="…"` (line 246). -/
def checkScanCmd (scanId : String) : String :=
  "make check-ai-results-scan SCAN_ID=\"" ++ scanId ++ "\""

/-- `make check-ai-results-verbose MAX_CHECKS="…" DELAY="…"` (line 248). -/
def checkVerboseCmd (cfg : RunCfg) : String :=
  "make check-ai-results-verbose MAX_CHECKS=\"" ++ toString cfg.maxChecks ++
    "\" DELAY=\"" ++ cfg.delayRepr ++ "\""

/-- `make combine-analysis SCAN_ID="…"` (line 251). -/
def combineCmd (scanId : String) : String :=
  "make combine-analysis SCAN_ID=\"" ++ scanId ++ "\""

/-- `run_makeflow` (lines 233-254): scan, resolve the newest scan directory,
check, verbose check, combine — every step with `check=True`, so any non-zero
exit raises.  Returns the issued commands and the scan id reported by the
final log line on success. -/
def run_makeflow (w : ShellWorld) (cfg : RunCfg) : List String × Except DcxError String :=
  let c1 := scanFullCmd cfg
  if w.ret c1 ≠ 0 then ([c1], Except.error (DcxError.cmdFailed c1))
  else
    match w.latestScanDir with
    | none => ([c1], Except.error DcxError.noScanDirectory)
    | some d =>
      let scanId := pyPathName d
      let c2 := checkScanCmd scanId
      if w.ret c2 ≠ 0 then ([c1, c2], Except.error (DcxError.cmdFailed c2))
      else
        let c3 := checkVerboseCmd cfg
        if w.ret c3 ≠ 0 then ([c1, c2, c3], Except.error (DcxError.cmdFailed c3))
        else
          let c4 := combineCmd scanId
          if w.ret c4 ≠ 0 then ([c1, c2, c3, c4], Except.error (DcxError.cmdFailed c4))
          else ([c1, c2, c3, c4], Except.ok scanId)

/-- `GROQ_API_KEY=… <dcx> scan start "…"` (line 260). -/
def scanStartCmd (w : ShellWorld) (cfg : RunCfg) : String :=
  "GROQ_API_KEY=" ++ cfg.apiKey ++ " " ++ w.dcxCmd ++ " scan start \"" ++
    cfg.repoPath ++ "\""

/-- The body of `run_cli` (lines 257-268): one `scan start` invocation with
`check=True`, then resolve the newest scan directory (fatal when absent) and
log completion.  `max_checks` and `delay` are parameters of the Python
function but are never used. -/
def run_cli (w : ShellWorld) (cfg : RunCfg) : List String × Except DcxError String :=
  let c1 := scanStartCmd w cfg
  if w.ret c1 ≠ 0 then ([c1], Except.error (DcxError.cmdFailed c1))
  else
    match w.latestScanDir with
    | none => ([c1], Except.error DcxError.noScanDirectory)
    | some d => ([c1], Except.ok (pyPathName d))

/-- `def run_cli(repo_path, max_checks, delay, AI_API_KEY)` (line 257) has
four parameters, none with a default. -/
def runCliParamCount : Nat := 4

/-- No parameter of `run_cli` has a default value. -/
def runCliDefaultCount : Nat := 0

/-- `run_cli(repo_path, max_checks, delay)` (line 298) passes three positional
arguments. -/
def mainRunCliArgCount : Nat := 3

/-- Python's call-arity check: a call with `args` positional arguments to a
function with `params` parameters, the last `defaults` of which have default
values, succeeds exactly when `params - defaults ≤ args ≤ params`; otherwise
the call raises `TypeError` before entering the body. -/
def pyArityOk (params defaults args : Nat) : Bool :=
  args ≤ params && params - defaults ≤ args

/-- A call to `run_cli` with `nargs` positional arguments: `TypeError` when
the arity check fails, the function body otherwise. -/
def callRunCli (w : ShellWorld) (cfg : RunCfg) (nargs : Nat) :
    List String × Except DcxError String :=
  if pyArityOk runCliParamCount runCliDefaultCount nargs then run_cli w cfg
  else ([], Except.error (DcxError.arityError "run_cli"))

/-- The workflow stage of `main` (lines 297-298): the single call
`run_cli(repo_path, max_checks, delay)`. -/
def mainWorkflowStage (w : ShellWorld) (cfg : RunCfg) :
    List String × Except DcxError String :=
  callRunCli w cfg mainRunCliArgCount

/-- The two orchestration modes the specification names. -/
inductive WorkflowMode where
  | orchestrated : WorkflowMode
  | direct : WorkflowMode
deriving Repr, DecidableEq

/-- Which mode `main` (lines 274-299) runs.  The argument records whether a
build-description file (Makefile) exists in the configured scanner directory;
`main` never consults the filesystem and calls `run_cli` unconditionally —
`run_makeflow` has no caller. -/
def mainWorkflowMode (_buildDescFileExists : Bool) : WorkflowMode :=
  WorkflowMode.direct

/-- Direct-mode `status` subcommand detector, for trace assertions. -/
def isStatusCmd (c : String) : Bool := containsSubstr c " status"

/-- Combine-step detector, for trace assertions. -/
def isCombineCmd (c : String) : Bool := containsSubstr c "combine"

/-! ## Archive fetcher `uv_tool_install_from_url` (lines 137-206)

Network responses are modelled as data: the status code, declared content
type, `Content-Disposition` header, the raw body text, and the result of
`r.json()` when the body parses as a JSON object.  The function's observable
effects are collected in `FetchEffects`: which dispatch branch ran, which
files were written and deleted, the install commands issued, and the outcome.
-/

/-- One HTTP response as the code observes it. -/
structure HttpResp where
  status : Nat
  contentType : String
  contentDisposition : String
  rawBody : String
  jsonBody : Option (List (String × JValue))

/-- The network: the response to the first GET of the service URL, and the
response to the re-fetch of whatever asset URL gets extracted. -/
structure FetchWorld where
  first : HttpResp
  second : String → HttpResp

/-- Observable effects of one `uv_tool_install_from_url` run. -/
structure FetchEffects where
  envelopeBranch : Bool
  filesWritten : List String
  filesDeleted : List String
  installTrace : List String
  result : Except DcxError Unit

/-- `uv_tool_install_from_url` (lines 137-206): `dest_dir = Path.cwd()` (line
139); non-200 raises; the envelope branch is taken exactly when `"json" in
content_type.lower()` (line 160); the extracted asset URL is re-fetched
without credentials; the archive is written to `dest_dir / filename` and then
`install_from_archive` runs.  Nothing is ever deleted. -/
def uv_tool_install_from_url (fw : FetchWorld) (sw : ShellWorld)
    (cwd url _token : String) : FetchEffects :=
  if fw.first.status ≠ 200 then
    { envelopeBranch := false, filesWritten := [], filesDeleted := [],
      installTrace := [], result := Except.error (DcxError.downloadFailed fw.first.status) }
  else if containsSubstr (pyLower fw.first.contentType) "json" then
    let payload := fw.first.jsonBody.getD []
    let assetUrl := extract_download_url_from_json payload
    if assetUrl = "" then
      { envelopeBranch := true, filesWritten := [], filesDeleted := [],
        installTrace := [], result := Except.error DcxError.envelopeMissingURL }
    else
      let r2 := fw.second assetUrl
      if r2.status ≠ 200 then
        { envelopeBranch := true, filesWritten := [], filesDeleted := [],
          installTrace := [],
          result := Except.error (DcxError.assetDownloadFailed r2.status) }
      else
        let archive := cwd ++ "/" ++ deriveFilename r2.contentDisposition assetUrl
        let inst := install_from_archive sw archive
        { envelopeBranch := true, filesWritten := [archive], filesDeleted := [],
          installTrace := inst.1, result := inst.2 }
  else
    let archive := cwd ++ "/" ++ deriveFilename fw.first.contentDisposition url
    let inst := install_from_archive sw archive
    { envelopeBranch := false, filesWritten := [archive], filesDeleted := [],
      installTrace := inst.1, result := inst.2 }

/-- Modelled from the spec: the structural sniff the specification describes —
the body looks like a JSON object (starts with `\x7b`, ends with `\x7d`).
The source never performs this sniff; the definition exists to state the
spec's claimed dispatch condition. -/
def specBodySniffJson (s : String) : Bool :=
  s.data.head? == some (Char.ofNat 123) && s.data.getLast? == some (Char.ofNat 125)

/-! ## Decidability and concrete fixtures -/

instance {ε α : Type} [DecidableEq ε] [DecidableEq α] : DecidableEq (Except ε α)
  | Except.ok x, Except.ok y =>
    if h : x = y then Decidable.isTrue (congrArg Except.ok h)
    else Decidable.isFalse (fun he => h (Except.ok.inj he))
  | Except.error x, Except.error y =>
    if h : x = y then Decidable.isTrue (congrArg Except.error h)
    else Decidable.isFalse (fun he => h (Except.error.inj he))
  | Except.ok _, Except.error _ => Decidable.isFalse (fun he => Except.noConfusion he)
  | Except.error _, Except.ok _ => Decidable.isFalse (fun he => Except.noConfusion he)

/-- A shell in which every command exits 1 and no scan directory exists. -/
def failShell : ShellWorld := { ret := fun _ => 1, latestScanDir := none, dcxCmd := "uvx dcx" }

/-- A shell in which every command exits 0 and one scan directory exists. -/
def okShell : ShellWorld :=
  { ret := fun _ => 0, latestScanDir := some "output/dcx-scan-1", dcxCmd := "uvx dcx" }

/-- A shell in which exactly the combine step fails. -/
def combineFailShell : ShellWorld :=
  { ret := fun c => if c = combineCmd "dcx-scan-1" then 1 else 0,
    latestScanDir := some "output/dcx-scan-1", dcxCmd := "uvx dcx" }

/-- A shell in which exactly the status subcommands fail: the scan succeeds,
a scan directory exists, and any command invoking `status` exits 1. -/
def statusFailShell : ShellWorld :=
  { ret := fun c => if isStatusCmd c then 1 else 0,
    latestScanDir := some "output/dcx-scan-1", dcxCmd := "uvx dcx" }

/-- A small concrete run configuration (`max_checks = 3`). -/
def cfg0 : RunCfg := { repoPath := "/repo", maxChecks := 3, delayRepr := "1.0", apiKey := "k" }

/-- A direct binary response (non-JSON content type). -/
def binResp : HttpResp :=
  { status := 200, contentType := "application/octet-stream",
    contentDisposition := "", rawBody := "", jsonBody := none }

/-- A network returning the binary response everywhere. -/
def fwDirect : FetchWorld := { first := binResp, second := fun _ => binResp }

/-- A response whose body is a JSON object carrying a `download_url`, but
whose declared content type does not mention JSON. -/
def jsonBodyResp : HttpResp :=
  { status := 200, contentType := "application/octet-stream", contentDisposition := "",
    rawBody := "\x7b\"download_url\": \"https://h/pkg.whl\"\x7d",
    jsonBody := some [("download_url", JValue.str "https://h/pkg.whl")] }

/-- A network whose first response is `jsonBodyResp`. -/
def fwSniff : FetchWorld := { first := jsonBodyResp, second := fun _ => binResp }

/-- A payload with no well-known key and one nested matching string. -/
def p8 : List (String × JValue) := [("note", JValue.arr [JValue.str "see https://h/p.whl"])]
/-! ## Regex lemmas -/

theorem regexFull_anySuffix (l : List Char) (h : regexFull l = true) :
    anySuffixFull l = true := by
  unfold anySuffixFull
  rw [List.any_eq_true]
  exact ⟨0, List.mem_range.mpr (Nat.succ_pos _), by simpa using h⟩

theorem matchB_implies_searchB (s : String) (h : pyMatchB s = true) :
    pySearchB s = true := by
  unfold pyMatchB at h
  unfold pySearchB
  rcases Bool.or_eq_true_iff.mp h with h1 | h2
  · exact Bool.or_eq_true_iff.mpr (Or.inl (regexFull_anySuffix _ h1))
  · rcases Bool.and_eq_true_iff.mp h2 with ⟨hn, hd⟩
    exact Bool.or_eq_true_iff.mpr
      (Or.inr (Bool.and_eq_true_iff.mpr ⟨hn, regexFull_anySuffix _ hd⟩))

theorem searchB_ne_empty (s : String) (h : pySearchB s = true) : s ≠ "" := by
  intro he
  subst he
  exact absurd h (by decide)

theorem regexFullLower_http (l : List Char) (h : regexFullLower l = true) :
    "http".data.isPrefixOf l = true := by
  unfold regexFullLower at h
  by_cases h7 : "http://".data.isPrefixOf l = true
  · have : "http".data <+: l :=
      List.IsPrefix.trans (by decide) (List.isPrefixOf_iff_prefix.mp h7)
    exact List.isPrefixOf_iff_prefix.mpr this
  · rw [if_neg (by simpa using h7)] at h
    by_cases h8 : "https://".data.isPrefixOf l = true
    · have : "http".data <+: l :=
        List.IsPrefix.trans (by decide) (List.isPrefixOf_iff_prefix.mp h8)
      exact List.isPrefixOf_iff_prefix.mpr this
    · rw [if_neg (by simpa using h8)] at h
      exact absurd h (by simp)

theorem matchB_http_prefix (s : String) (h : pyMatchB s = true) :
    "http".data.isPrefixOf (s.data.map Char.toLower) = true := by
  unfold pyMatchB at h
  rcases Bool.or_eq_true_iff.mp h with h1 | h2
  · exact regexFullLower_http _ h1
  · rcases Bool.and_eq_true_iff.mp h2 with ⟨_, hd⟩
    have hp := regexFullLower_http _ hd
    have h1 : "http".data <+: (s.data.dropLast.map Char.toLower) :=
      List.isPrefixOf_iff_prefix.mp hp
    have h2' : (s.data.dropLast.map Char.toLower) <+: (s.data.map Char.toLower) :=
      (List.dropLast_prefix s.data).map Char.toLower
    exact List.isPrefixOf_iff_prefix.mpr (List.IsPrefix.trans h1 h2')

/-! ## Walk lemmas -/

mutual

theorem walkV_sound : ∀ (v : JValue) (s : String), walkV v = some s → pySearchB s = true
  | JValue.str t, s, h => by
    unfold walkV at h
    by_cases hc : pySearchB t = true
    · simp [hc] at h; subst h; exact hc
    · simp [hc] at h
  | JValue.arr xs, s, h => walkL_sound xs s (by unfold walkV at h; exact h)
  | JValue.obj kvs, s, h => walkO_sound kvs s (by unfold walkV at h; exact h)
  | JValue.num _, s, h => by unfold walkV at h; exact absurd h (by simp)
  | JValue.bool _, s, h => by unfold walkV at h; exact absurd h (by simp)
  | JValue.null, s, h => by unfold walkV at h; exact absurd h (by simp)

theorem walkL_sound : ∀ (xs : List JValue) (s : String), walkL xs = some s → pySearchB s = true
  | [], s, h => by simp [walkL] at h
  | v :: rest, s, h => by
    unfold walkL at h
    cases hv : walkV v with
    | some t => rw [hv] at h; injection h with h; subst h; exact walkV_sound v t hv
    | none => rw [hv] at h; exact walkL_sound rest s h

theorem walkO_sound : ∀ (kvs : List (String × JValue)) (s : String),
    walkO kvs = some s → pySearchB s = true
  | [], s, h => by simp [walkO] at h
  | (k, v) :: rest, s, h => by
    unfold walkO at h
    cases hv : walkV v with
    | some t => rw [hv] at h; injection h with h; subst h; exact walkV_sound v t hv
    | none => rw [hv] at h; exact walkO_sound rest s h

end

mutual

theorem walkV_complete : ∀ (v : JValue), hasV v = true → (walkV v).isSome
  | JValue.str t, h => by
    unfold hasV at h
    unfold walkV
    simp [h]
  | JValue.arr xs, h => by
    unfold hasV at h
    unfold walkV
    exact walkL_complete xs h
  | JValue.obj kvs, h => by
    unfold hasV at h
    unfold walkV
    exact walkO_complete kvs h
  | JValue.num _, h => by simp [hasV] at h
  | JValue.bool _, h => by simp [hasV] at h
  | JValue.null, h => by simp [hasV] at h

theorem walkL_complete : ∀ (xs : List JValue), hasL xs = true → (walkL xs).isSome
  | v :: rest, h => by
    unfold hasL at h
    unfold walkL
    cases hv : walkV v with
    | some t => simp
    | none =>
      simp only [hv]
      rcases Bool.or_eq_true_iff.mp h with h1 | h2
      · exact absurd (walkV_complete v h1) (by simp [hv])
      · exact walkL_complete rest h2

theorem walkO_complete : ∀ (kvs : List (String × JValue)), hasO kvs = true → (walkO kvs).isSome
  | (k, v) :: rest, h => by
    unfold hasO at h
    unfold walkO
    cases hv : walkV v with
    | some t => simp
    | none =>
      simp only [hv]
      rcases Bool.or_eq_true_iff.mp h with h1 | h2
      · exact absurd (walkV_complete v h1) (by simp [hv])
      · exact walkO_complete rest h2

end

mutual

theorem walkV_none : ∀ (v : JValue), hasV v = false → walkV v = none
  | JValue.str t, h => by
    unfold hasV at h
    unfold walkV
    simp [h]
  | JValue.arr xs, h => by
    unfold hasV at h
    unfold walkV
    exact walkL_none xs h
  | JValue.obj kvs, h => by
    unfold hasV at h
    unfold walkV
    exact walkO_none kvs h
  | JValue.num _, _ => by unfold walkV; rfl
  | JValue.bool _, _ => by unfold walkV; rfl
  | JValue.null, _ => by unfold walkV; rfl

theorem walkL_none : ∀ (xs : List JValue), hasL xs = false → walkL xs = none
  | [], _ => by simp [walkL]
  | v :: rest, h => by
    unfold hasL at h
    rcases Bool.or_eq_false_iff.mp h with ⟨h1, h2⟩
    unfold walkL
    rw [walkV_none v h1]
    exact walkL_none rest h2

theorem walkO_none : ∀ (kvs : List (String × JValue)), hasO kvs = false → walkO kvs = none
  | [], _ => by simp [walkO]
  | (k, v) :: rest, h => by
    unfold hasO at h
    rcases Bool.or_eq_false_iff.mp h with ⟨h1, h2⟩
    unfold walkO
    rw [walkV_none v h1]
    exact walkO_none rest h2

end

/-! ## Key-phase lemmas -/

theorem findSome?_eq_some_exists {α β : Type} (f : α → Option β) (l : List α) (b : β)
    (h : l.findSome? f = some b) : ∃ a, a ∈ l ∧ f a = some b := by
  induction l with
  | nil => simp [List.findSome?] at h
  | cons x xs ih =>
    cases hx : f x with
    | some y =>
      simp only [List.findSome?_cons, hx] at h
      exact ⟨x, by simp, by rw [hx, h]⟩
    | none =>
      simp only [List.findSome?_cons, hx] at h
      obtain ⟨a, ha, hfa⟩ := ih h
      exact ⟨a, by simp [ha], hfa⟩

theorem findSome?_isSome_of_mem {α β : Type} (f : α → Option β) (l : List α) (a : α) (b : β)
    (ha : a ∈ l) (hfa : f a = some b) : (l.findSome? f).isSome := by
  induction l with
  | nil => simp at ha
  | cons x xs ih =>
    rw [List.findSome?_cons]
    cases hx : f x with
    | some y => simp
    | none =>
      rcases List.mem_cons.mp ha with rfl | hmem
      · rw [hx] at hfa; simp at hfa
      · exact ih hmem

theorem keyProbe_eq_some (payload : List (String × JValue)) (k : String) (v : String)
    (h : keyProbe payload k = some v) :
    payload.lookup k = some (JValue.str v) ∧ pyMatchB v = true := by
  unfold keyProbe at h
  cases hl : payload.lookup k with
  | none => rw [hl] at h; simp at h
  | some jv =>
    rw [hl] at h
    cases jv with
    | str w =>
      by_cases hm : pyMatchB w = true
      · simp only [hm, if_true] at h
        injection h with h
        subst h
        exact ⟨rfl, hm⟩
      · simp [hm] at h
    | num n => simp at h
    | bool b => simp at h
    | null => simp at h
    | arr xs => simp at h
    | obj kvs => simp at h

theorem keyPhase_eq_some (payload : List (String × JValue)) (v : String)
    (h : keyPhase payload = some v) :
    ∃ k, k ∈ wellKnownKeys ∧ payload.lookup k = some (JValue.str v) ∧ pyMatchB v = true := by
  obtain ⟨k, hk, hp⟩ := findSome?_eq_some_exists (keyProbe payload) wellKnownKeys v h
  obtain ⟨hl, hm⟩ := keyProbe_eq_some payload k v hp
  exact ⟨k, hk, hl, hm⟩

theorem lookup_str_hasO (payload : List (String × JValue)) (k : String) (v : String)
    (hl : payload.lookup k = some (JValue.str v)) (hs : pySearchB v = true) :
    hasO payload = true := by
  induction payload with
  | nil => simp [List.lookup] at hl
  | cons kv rest ih =>
    obtain ⟨k', v'⟩ := kv
    rw [List.lookup] at hl
    cases he : (k == k') with
    | true =>
      simp only [he] at hl
      injection hl with hl
      subst hl
      unfold hasO hasV
      simp [hs]
    | false =>
      simp only [he] at hl
      unfold hasO
      simp [ih hl]


/-! ## Workflow helper lemmas -/

theorem run_cli_trace (w : ShellWorld) (cfg : RunCfg) :
    (run_cli w cfg).1 = [scanStartCmd w cfg] := by
  unfold run_cli
  by_cases h : w.ret (scanStartCmd w cfg) ≠ 0
  · simp [h]
  · cases hd : w.latestScanDir <;> simp [h, hd]

theorem scanStart_ne_combine (w : ShellWorld) (cfg : RunCfg) (s : String) :
    scanStartCmd w cfg ≠ combineCmd s := by
  intro h
  have hd : (scanStartCmd w cfg).data.take 4 = (combineCmd s).data.take 4 := by rw [h]
  unfold scanStartCmd combineCmd at hd
  simp only [String.data_append, List.append_assoc] at hd
  rw [List.take_append_of_le_length (by decide),
      List.take_append_of_le_length (by decide)] at hd
  exact absurd hd (by decide)

/-! ## Claim C1 -/

/-- C1: the workflow call in `main`, `run_cli(repo_path, max_checks, delay)`
(line 298), passes three positional arguments to `run_cli`, whose signature
(line 257) requires four — `AI_API_KEY` has no default — so for every shell
world and configuration the workflow stage raises `TypeError` with an empty
command trace: no scan subcommand runs and `run_cli`'s completion log is never
reached through this call. -/
theorem C1_main_run_cli_arity (w : ShellWorld) (cfg : RunCfg) :
    mainWorkflowStage w cfg = ([], Except.error (DcxError.arityError "run_cli")) ∧
    pyArityOk runCliParamCount runCliDefaultCount mainRunCliArgCount = false := by
  refine ⟨?_, by decide⟩
  have ha : pyArityOk runCliParamCount runCliDefaultCount mainRunCliArgCount = false := by
    decide
  unfold mainWorkflowStage callRunCli
  rw [ha]
  simp

/-! ## Claim C2 -/

/-- C2 counterexample: with a build-description file present in the scanner
directory, `main` still selects Direct Mode and never Orchestrated Mode,
contradicting the claimed mode selection. -/
theorem C2_counterexample :
    mainWorkflowMode true = WorkflowMode.direct ∧
    mainWorkflowMode true ≠ WorkflowMode.orchestrated := by decide

/-- C2 amended: `main` always runs Direct Mode (`run_cli`) regardless of
whether a build-description file exists in the scanner directory; the
orchestrated `run_makeflow` flow is not invoked by `main`. -/
theorem C2_amended_always_direct (b : Bool) (w : ShellWorld) (cfg : RunCfg) :
    mainWorkflowMode b = WorkflowMode.direct ∧
    mainWorkflowStage w cfg = callRunCli w cfg mainRunCliArgCount :=
  ⟨rfl, rfl⟩

/-! ## Claim C3 -/

/-- C3 counterexample: Direct Mode with `max_checks = 3` in a world where the
scan step succeeds (the run completes, reporting the scan identifier) and
every status subcommand would fail: the claim requires exactly three status
invocations before the combine step, but `run_cli` performs zero — it has no
polling loop. -/
theorem C3_counterexample :
    (run_cli statusFailShell cfg0).2 = Except.ok "dcx-scan-1" ∧
    (run_cli statusFailShell cfg0).1.countP isStatusCmd = 0 ∧
    ¬((run_cli statusFailShell cfg0).1.countP isStatusCmd = cfg0.maxChecks) := by decide

/-- C3 amended: Direct Mode performs no polling and no combine: `run_cli`
issues exactly one command, the `scan start` invocation, and its behaviour is
independent of `max_checks` and `delay`. -/
theorem C3_amended_no_polling (w : ShellWorld) (cfg : RunCfg) (mc : Nat) (dl : String) :
    (run_cli w cfg).1 = [scanStartCmd w cfg] ∧
    run_cli w { repoPath := cfg.repoPath, maxChecks := mc, delayRepr := dl,
                apiKey := cfg.apiKey } = run_cli w cfg :=
  ⟨run_cli_trace w cfg, rfl⟩

/-! ## Claim C4 -/

/-- C4 counterexample: in Orchestrated Mode, when the scan and both check
steps succeed but the combine step exits non-zero, `run_makeflow` raises
`CommandFailed` instead of terminating while reporting the scan identifier. -/
theorem C4_counterexample :
    (run_makeflow combineFailShell cfg0).2 =
      Except.error (DcxError.cmdFailed (combineCmd "dcx-scan-1")) ∧
    (run_makeflow combineFailShell cfg0).2 ≠ Except.ok "dcx-scan-1" := by decide

/-- C4 amended: the combine step is best-effort in neither mode: in
Orchestrated Mode a non-zero combine exit raises `CommandFailed` (line 251
runs with `check=True`), and Direct Mode never issues a combine command at
all. -/
theorem C4_amended_combine_fatal (w : ShellWorld) (cfg : RunCfg) (d : String)
    (h1 : w.ret (scanFullCmd cfg) = 0)
    (h2 : w.latestScanDir = some d)
    (h3 : w.ret (checkScanCmd (pyPathName d)) = 0)
    (h4 : w.ret (checkVerboseCmd cfg) = 0)
    (h5 : w.ret (combineCmd (pyPathName d)) ≠ 0) :
    run_makeflow w cfg =
      ([scanFullCmd cfg, checkScanCmd (pyPathName d), checkVerboseCmd cfg,
        combineCmd (pyPathName d)],
       Except.error (DcxError.cmdFailed (combineCmd (pyPathName d)))) ∧
    ∀ (w' : ShellWorld) (cfg' : RunCfg) (s : String),
      combineCmd s ∉ (run_cli w' cfg').1 := by
  constructor
  · unfold run_makeflow
    rw [h2]
    simp [h1, h3, h4, h5]
  · intro w' cfg' s hmem
    rw [run_cli_trace w' cfg'] at hmem
    exact scanStart_ne_combine w' cfg' s (List.mem_singleton.mp hmem).symm

/-- C4 witness: the amended theorem instantiated at the shell in which exactly
the combine step fails. -/
theorem C4_witness :
    run_makeflow combineFailShell cfg0 =
      ([scanFullCmd cfg0, checkScanCmd (pyPathName "output/dcx-scan-1"),
        checkVerboseCmd cfg0, combineCmd (pyPathName "output/dcx-scan-1")],
       Except.error (DcxError.cmdFailed (combineCmd (pyPathName "output/dcx-scan-1")))) :=
  (C4_amended_combine_fatal combineFailShell cfg0 "output/dcx-scan-1"
    (by decide) rfl (by decide) (by decide) (by decide)).1

/-! ## Claim C5 -/

/-- C5 counterexample: the installer's strategy list has two entries, not
three; with every command failing, exactly two commands are attempted. -/
theorem C5_counterexample :
    (installStrategies "/tmp/pkg.whl").length = 2 ∧
    ¬((installStrategies "/tmp/pkg.whl").length = 3) ∧
    (install_from_archive failShell "/tmp/pkg.whl").1.length = 2 := by decide

/-- C5 amended: with the two-strategy list (isolated `uv tool install`, then
`pip3 install --user`), the installer runs strategies in order against the
same archive path, stops at the first zero exit having invoked exactly the
strategies up to it, and raises `RuntimeError` after both fail (the message
does not embed the attempted commands). -/
theorem C5_amended_fallback (w : ShellWorld) (p : String) :
    (w.ret (uvToolCmd p) = 0 →
      install_from_archive w p = ([uvToolCmd p], Except.ok ())) ∧
    (w.ret (uvToolCmd p) ≠ 0 → w.ret (pip3Cmd p) = 0 →
      install_from_archive w p = ([uvToolCmd p, pip3Cmd p], Except.ok ())) ∧
    (w.ret (uvToolCmd p) ≠ 0 → w.ret (pip3Cmd p) ≠ 0 →
      install_from_archive w p =
        ([uvToolCmd p, pip3Cmd p], Except.error DcxError.installFailed)) := by
  refine ⟨fun h1 => ?_, fun h1 h2 => ?_, fun h1 h2 => ?_⟩
  · simp [install_from_archive, installStrategies, installLoop, h1]
  · simp [install_from_archive, installStrategies, installLoop, h1, h2]
  · simp [install_from_archive, installStrategies, installLoop, h1, h2]

/-- C5 witness: the amended theorem's all-fail case at a concrete shell. -/
theorem C5_witness :
    install_from_archive failShell "/x/pkg.whl" =
      ([uvToolCmd "/x/pkg.whl", pip3Cmd "/x/pkg.whl"],
       Except.error DcxError.installFailed) :=
  (C5_amended_fallback failShell "/x/pkg.whl").2.2 (by decide) (by decide)

/-! ## Claim C6 -/

/-- C6 counterexample: a successful direct-binary run writes the archive into
the current working directory (not a fresh temporary location) and deletes
nothing, so the archive file remains after installation completes. -/
theorem C6_counterexample :
    (uv_tool_install_from_url fwDirect okShell "/work" "https://h/x/tool.whl" "").result
      = Except.ok () ∧
    (uv_tool_install_from_url fwDirect okShell "/work" "https://h/x/tool.whl" "").filesWritten
      = ["/work/tool.whl"] ∧
    (uv_tool_install_from_url fwDirect okShell "/work" "https://h/x/tool.whl" "").filesDeleted
      = [] := by decide

/-- C6 amended: the fetched archive is written under the current working
directory (`dest_dir = Path.cwd()`), and no file is ever deleted on any exit
path, success or failure: the archive remains after the installer returns. -/
theorem C6_amended_no_cleanup (fw : FetchWorld) (sw : ShellWorld) (cwd url token : String) :
    (uv_tool_install_from_url fw sw cwd url token).filesDeleted = [] ∧
    ∀ f ∈ (uv_tool_install_from_url fw sw cwd url token).filesWritten,
      ∃ name, f = cwd ++ "/" ++ name := by
  by_cases h1 : fw.first.status ≠ 200
  · refine ⟨by simp [uv_tool_install_from_url, h1], ?_⟩
    intro f hf
    simp [uv_tool_install_from_url, h1] at hf
  · by_cases h2 : containsSubstr (pyLower fw.first.contentType) "json" = true
    · by_cases h3 : extract_download_url_from_json (fw.first.jsonBody.getD []) = ""
      · refine ⟨by simp [uv_tool_install_from_url, h1, h2, h3], ?_⟩
        intro f hf
        simp [uv_tool_install_from_url, h1, h2, h3] at hf
      · by_cases h4 :
          (fw.second (extract_download_url_from_json (fw.first.jsonBody.getD []))).status ≠ 200
        · refine ⟨by simp [uv_tool_install_from_url, h1, h2, h3, h4], ?_⟩
          intro f hf
          simp [uv_tool_install_from_url, h1, h2, h3, h4] at hf
        · refine ⟨by simp [uv_tool_install_from_url, h1, h2, h3, h4], ?_⟩
          intro f hf
          simp [uv_tool_install_from_url, h1, h2, h3, h4] at hf
          exact ⟨_, hf⟩
    · refine ⟨by simp [uv_tool_install_from_url, h1, h2], ?_⟩
      intro f hf
      simp [uv_tool_install_from_url, h1, h2] at hf
      exact ⟨_, hf⟩

/-- C6 witness: the amended theorem instantiated at the direct-binary world,
showing the concrete archive written under the working directory. -/
theorem C6_witness : ∃ name, ("/work/tool.whl" : String) = "/work" ++ "/" ++ name :=
  (C6_amended_no_cleanup fwDirect okShell "/work" "https://h/x/tool.whl" "").2
    "/work/tool.whl" (by decide)

/-! ## Claim C7 -/

/-- C7 counterexample: a response whose body is a JSON object (the structural
sniff holds) but whose content type does not mention JSON is not treated as an
envelope: the direct-download branch runs. -/
theorem C7_counterexample :
    specBodySniffJson fwSniff.first.rawBody = true ∧
    containsSubstr (pyLower fwSniff.first.contentType) "json" = false ∧
    (uv_tool_install_from_url fwSniff okShell "/work" "https://h/dl" "").envelopeBranch
      = false := by decide

/-- C7 amended: for any 200 response, the fetcher treats it as a JSON envelope
exactly when the lowercased declared content type contains `json`; the body is
never sniffed. -/
theorem C7_amended_ctype_only (fw : FetchWorld) (sw : ShellWorld)
    (cwd url token : String) (h : fw.first.status = 200) :
    (uv_tool_install_from_url fw sw cwd url token).envelopeBranch =
      containsSubstr (pyLower fw.first.contentType) "json" := by
  by_cases h2 : containsSubstr (pyLower fw.first.contentType) "json" = true
  · by_cases h3 : extract_download_url_from_json (fw.first.jsonBody.getD []) = ""
    · simp [uv_tool_install_from_url, h, h2, h3]
    · by_cases h4 :
        (fw.second (extract_download_url_from_json (fw.first.jsonBody.getD []))).status ≠ 200
      · simp [uv_tool_install_from_url, h, h2, h3, h4]
      · simp [uv_tool_install_from_url, h, h2, h3, h4]
  · simp [uv_tool_install_from_url, h, h2]

/-- C7 witness: the amended theorem instantiated at the sniffable-body world. -/
theorem C7_witness :
    (uv_tool_install_from_url fwSniff okShell "/work" "https://h/dl" "").envelopeBranch =
      containsSubstr (pyLower fwSniff.first.contentType) "json" :=
  C7_amended_ctype_only fwSniff okShell "/work" "https://h/dl" "" rfl

/-! ## Claim C8 -/

/-- C8: URL extraction from a JSON envelope prefers well-known keys: whenever
some well-known key holds a string accepted by the anchored pattern, the
result is such a key's value; when no well-known key matches but some string
nested at any depth (objects, lists, strings) matches the search pattern, the
recursive walk returns a matching non-empty string; and when no matching
string exists anywhere, extraction returns the empty string and the fetch
fails with the missing-URL error. -/
theorem C8_extraction (payload : List (String × JValue)) :
    (∀ k v, k ∈ wellKnownKeys → payload.lookup k = some (JValue.str v) →
      pyMatchB v = true →
      ∃ k' v', k' ∈ wellKnownKeys ∧ payload.lookup k' = some (JValue.str v') ∧
        pyMatchB v' = true ∧ extract_download_url_from_json payload = v') ∧
    (keyPhase payload = none → hasO payload = true →
      pySearchB (extract_download_url_from_json payload) = true ∧
      extract_download_url_from_json payload ≠ "") ∧
    (hasO payload = false →
      extract_download_url_from_json payload = "" ∧
      ∀ (fw : FetchWorld) (sw : ShellWorld) (cwd url token : String),
        fw.first.status = 200 →
        containsSubstr (pyLower fw.first.contentType) "json" = true →
        fw.first.jsonBody = some payload →
        (uv_tool_install_from_url fw sw cwd url token).result =
          Except.error DcxError.envelopeMissingURL) := by
  refine ⟨?_, ?_, ?_⟩
  · intro k v hk hl hm
    have hprobe : keyProbe payload k = some v := by
      unfold keyProbe
      rw [hl]
      simp [hm]
    have hsome : (keyPhase payload).isSome :=
      findSome?_isSome_of_mem (keyProbe payload) wellKnownKeys k v hk hprobe
    obtain ⟨v'', hv''⟩ := Option.isSome_iff_exists.mp hsome
    obtain ⟨k', hk', hl', hm'⟩ := keyPhase_eq_some payload v'' hv''
    refine ⟨k', v'', hk', hl', hm', ?_⟩
    unfold extract_download_url_from_json
    rw [hv'']
  · intro hkp hhm
    have hw := walkO_complete payload hhm
    obtain ⟨s, hs⟩ := Option.isSome_iff_exists.mp hw
    have hsound := walkO_sound payload s hs
    have hex : extract_download_url_from_json payload = s := by
      unfold extract_download_url_from_json
      rw [hkp, hs]
      rfl
    rw [hex]
    exact ⟨hsound, searchB_ne_empty s hsound⟩
  · intro hno
    have hkp : keyPhase payload = none := by
      cases hkpc : keyPhase payload with
      | none => rfl
      | some v =>
        obtain ⟨k, hk, hl, hm⟩ := keyPhase_eq_some payload v hkpc
        have hh := lookup_str_hasO payload k v hl (matchB_implies_searchB v hm)
        rw [hno] at hh
        exact absurd hh (by simp)
    have hex : extract_download_url_from_json payload = "" := by
      unfold extract_download_url_from_json
      rw [hkp, walkO_none payload hno]
      rfl
    refine ⟨hex, ?_⟩
    intro fw sw cwd url token h200 hjson hbody
    simp [uv_tool_install_from_url, h200, hjson, hbody, hex]

/-- C8 witness: the recursive-fallback case at a payload with no well-known
key and one nested matching string. -/
theorem C8_witness :
    pySearchB (extract_download_url_from_json p8) = true ∧
    extract_download_url_from_json p8 ≠ "" :=
  (C8_extraction p8).2.1 (by decide) (by decide)

/-! ## Claim C9 -/

/-- C9: filename derivation: a `Content-Disposition` filename is preferred and
unquoted; without a disposition header the last URL-path segment (query
stripped by URL parsing) is used; a name without a recognized archive
extension gets `.tar.gz` appended. -/
theorem C9_filename_derivation :
    deriveFilename "attachment; filename=\"pkg-1.2.3.whl\""
      "https://h/x/other.tar.gz?x=1" = "pkg-1.2.3.whl" ∧
    deriveFilename "" "https://h/x/y/tool.tar.gz?sig=abc" = "tool.tar.gz" ∧
    deriveFilename "" "https://h/x/y/tool" = "tool.tar.gz" := by decide

/-! ## Claim C10 -/

/-- C10: the archive-URL pattern accepts (case-insensitively) http/https URLs
ending in `.whl` or `.tar.gz` with an optional query string; the anchored
`match` used by the well-known-key fast path requires the URL from the first
character, while the `search` used by the recursive fallback also accepts
strings with such a URL embedded at the end; every `match` success is a
`search` success, and a string with only a trailing embedded URL is rejected
by the key fast path yet returned by the recursive walk. -/
theorem C10_pattern_anchoring :
    (∀ s, pyMatchB s = true → pySearchB s = true) ∧
    (∀ s, pyMatchB s = true → "http".data.isPrefixOf (s.data.map Char.toLower) = true) ∧
    pyMatchB "https://h/tool.tar.gz?sig=1" = true ∧
    pyMatchB "HTTP://H/A.WHL" = true ∧
    pyMatchB "ftp://h/a.whl" = false ∧
    pyMatchB "http://h/a.zip" = false ∧
    pyMatchB "release: https://h/p.whl" = false ∧
    pySearchB "release: https://h/p.whl" = true ∧
    keyPhase [("url", JValue.str "release: https://h/p.whl")] = none ∧
    extract_download_url_from_json [("url", JValue.str "release: https://h/p.whl")] =
      "release: https://h/p.whl" :=
  ⟨matchB_implies_searchB, matchB_http_prefix, by decide⟩

/-- C10 witness: the match-implies-search conjunct applied at a concrete
anchored URL. -/
theorem C10_witness : pySearchB "http://h/a.whl" = true :=
  (C10_pattern_anchoring).1 "http://h/a.whl" (by decide)
